import Mathlib

/-!
Verification of `ThrowStream.h` (bennybp/ThrowStream), a single-header C++
utility building a backtrace-like message string inside an exception object.

The embedding is shallow: the object state is its string buffer `_desc`;
each C++ member function becomes a Lean function from the old state (plus
arguments) to the new state.  The build-time flag
`THROWSTREAM_EXCEPTIONSOURCE` becomes an explicit `Bool` parameter `detail`,
threaded through every operation, so that theorems can quantify over both
build configurations.  The `std::exception` argument of the copying
constructor / `Append` overload is modelled as a closed sum: either another
`ThrowStream` (the `dynamic_cast` succeeds) or a foreign exception carrying
only its flat `what()` message.
-/

namespace ThrowStreamSpec

/-- The location marker built inside `ThrowStream::Append(line, file, function)`
(ThrowStream.h lines 77-90): a newline, then — only when
`THROWSTREAM_EXCEPTIONSOURCE` is defined — the text
`( <file>:<line> , in <function>() )    ->  `. -/
def locString (detail : Bool) (line : Nat) (file fn : String) : String :=
  "\n" ++ (if detail then "( " ++ file ++ ":" ++ toString line ++ " , in " ++ fn ++ "() )    ->  " else "")

/-- The `ThrowStream` object: its only state is the accumulated backtrace
string `_desc` (ThrowStream.h line 35). -/
structure ThrowStream where
  _desc : String
deriving DecidableEq

/-- Modelled `std::exception` argument of the copying operations: the
`dynamic_cast<const ThrowStream*>` in `Append` either succeeds (the argument
is a `ThrowStream`) or fails (a foreign exception exposing only a flat
`what()` message). -/
inductive Exn where
  | ts (t : ThrowStream)
  | foreign (msg : String)
deriving DecidableEq

/-- `ThrowStream::Append(const unsigned long, const string&, const string&)`
(lines 77-90): appends the location marker to `_desc` and returns `*this`. -/
def ThrowStream.Append (ts : ThrowStream) (detail : Bool) (line : Nat) (file fn : String) : ThrowStream :=
  ⟨ts._desc ++ locString detail line file fn⟩

/-- `ThrowStream::operator<<(const T&)` (lines 142-149): renders `rhs` into a
fresh `stringstream` and appends the result to `_desc`.  The rendering
`ss.str()` is taken as the `String` argument `s` (for a `String` rhs it is the
string itself). -/
def ThrowStream.AppendText (ts : ThrowStream) (s : String) : ThrowStream :=
  ⟨ts._desc ++ s⟩

/-- `ThrowStream::Append(const exception&, ...)` (lines 102-121): if the
exception dynamic-casts to `ThrowStream`, append its whole `_desc` verbatim;
otherwise append a location marker followed by `ex.what()`.  In both branches
finish with one more `Append(line, file, function)`. -/
def ThrowStream.AppendEx (ts : ThrowStream) (detail : Bool) (ex : Exn) (line : Nat) (file fn : String) : ThrowStream :=
  let merged : ThrowStream :=
    match ex with
    | .ts t => ⟨ts._desc ++ t._desc⟩
    | .foreign m => (ts.Append detail line file fn).AppendText m
  merged.Append detail line file fn

/-- The constructor `ThrowStream(line, file, function)` (lines 47-50): start
from an empty buffer and `Append` the location. -/
def ThrowStream.ofLoc (detail : Bool) (line : Nat) (file fn : String) : ThrowStream :=
  ThrowStream.Append ⟨""⟩ detail line file fn

/-- The constructor `ThrowStream(ex, line, file, function)` (lines 60-63):
start from an empty buffer and `Append` the exception with the location. -/
def ThrowStream.ofEx (detail : Bool) (ex : Exn) (line : Nat) (file fn : String) : ThrowStream :=
  ThrowStream.AppendEx ⟨""⟩ detail ex line file fn

/-- `ThrowStream::what()` (lines 130-133): returns the buffer. -/
def ThrowStream.what (ts : ThrowStream) : String :=
  ts._desc

/-- `ThrowStream::what()` modelled as a call on the object state: it is a
`const` member returning `_desc.c_str()`, so the call produces the buffer and
leaves the object unchanged. -/
def ThrowStream.whatCall (ts : ThrowStream) : String × ThrowStream :=
  (ts._desc, ts)

/-- The free `operator<<(ostream&, const ThrowStream&)` (lines 230-234):
writes `_desc` to the stream; the stream is modelled as the string written so
far. -/
def ostreamWrite (os : String) (ts : ThrowStream) : String :=
  os ++ ts._desc

/-- Streaming one `ThrowStream` into another, `ts1 << ts2`: this goes through
the member template `operator<<` at `T = ThrowStream`, whose fresh
`stringstream` receives `ts2` via the free inserter, so the appended text is
`ostreamWrite "" ts2`. -/
def ThrowStream.AppendTS (t1 t2 : ThrowStream) : ThrowStream :=
  t1.AppendText (ostreamWrite "" t2)

/-- Claim C1: a freshly constructed `ThrowStream(line, file, function)` has
message exactly `"\n"` when `THROWSTREAM_EXCEPTIONSOURCE` is disabled, and
exactly `"\n( <file>:<line> , in <function>() )    ->  "` when it is
enabled. -/
theorem C1_fresh_message (line : Nat) (file fn : String) :
    (ThrowStream.ofLoc false line file fn).what = "\n" ∧
    (ThrowStream.ofLoc true line file fn).what =
      "\n( " ++ file ++ ":" ++ toString line ++ " , in " ++ fn ++ "() )    ->  " := by
  constructor <;>
    · apply String.ext
      simp [ThrowStream.ofLoc, ThrowStream.Append, ThrowStream.what, locString,
        String.data_append]

/-- Claim C2: constructing a `ThrowStream` from an existing `ThrowStream`
chain (the `dynamic_cast` succeeds) yields exactly the chain's full message
followed by one new location marker, with no duplication. -/
theorem C2_chain_same_kind (detail : Bool) (ts chain : ThrowStream) (l : Nat) (f fn : String) :
    (ThrowStream.ofEx detail (Exn.ts chain) l f fn).what =
      chain.what ++ locString detail l f fn ∧
    (ts.AppendEx detail (Exn.ts chain) l f fn).what =
      ts.what ++ chain.what ++ locString detail l f fn := by
  constructor <;>
    · apply String.ext
      simp [ThrowStream.ofEx, ThrowStream.AppendEx, ThrowStream.Append, ThrowStream.what,
        String.data_append]

/-- Claim C3: constructing a `ThrowStream` from a foreign exception with flat
message `m` yields the location marker, then `m`, then the identical marker
again, with nothing after the second marker. -/
theorem C3_chain_foreign_kind (detail : Bool) (m : String) (l : Nat) (f fn : String) :
    (ThrowStream.ofEx detail (Exn.foreign m) l f fn).what =
      locString detail l f fn ++ m ++ locString detail l f fn := by
  apply String.ext
  simp [ThrowStream.ofEx, ThrowStream.AppendEx, ThrowStream.Append, ThrowStream.AppendText,
    ThrowStream.what, String.data_append]

/-- Claim C5: no operation of the interface truncates or rewrites the buffer:
after `Append`, `AppendEx` (either branch) or `AppendText` the previous
contents are an unchanged prefix of the new contents, and `what()` leaves the
object unchanged. -/
theorem C5_append_only (detail : Bool) (ts : ThrowStream) (ex : Exn) (l : Nat) (f fn s : String) :
    (∃ t, (ts.Append detail l f fn)._desc = ts._desc ++ t) ∧
    (∃ t, (ts.AppendEx detail ex l f fn)._desc = ts._desc ++ t) ∧
    (∃ t, (ts.AppendText s)._desc = ts._desc ++ t) ∧
    (ts.whatCall).2 = ts := by
  refine ⟨⟨locString detail l f fn, rfl⟩, ?_, ⟨s, rfl⟩, rfl⟩
  cases ex with
  | ts t =>
      exact ⟨t._desc ++ locString detail l f fn, by
        apply String.ext
        simp [ThrowStream.AppendEx, ThrowStream.Append, String.data_append]⟩
  | foreign m =>
      exact ⟨locString detail l f fn ++ m ++ locString detail l f fn, by
        apply String.ext
        simp [ThrowStream.AppendEx, ThrowStream.Append, ThrowStream.AppendText,
          String.data_append]⟩

/-- Claim C6: the stream-in operator appends the textual representation of
each value in order with no separator:
`(ts << v1 << v2).Message() = ts.Message() ++ textOf v1 ++ textOf v2`. -/
theorem C6_stream_append (ts : ThrowStream) (s1 s2 : String) :
    ((ts.AppendText s1).AppendText s2).what = ts.what ++ s1 ++ s2 := by
  apply String.ext
  simp [ThrowStream.AppendText, ThrowStream.what, String.data_append]

/-- Claim C7: with detail enabled, origination at line 42 of file `calc.src`
in function `Divide`, followed by the text
`Error: I cannot take the inverse of 0!` (sic: the real text has an
apostrophe), yields exactly the expected message. -/
theorem C7_end_to_end :
    ((ThrowStream.ofLoc true 42 "calc.src" "Divide").AppendText
        ("Error: I can" ++ ⟨['\x27']⟩ ++ "t take the inverse of 0!")).what =
      "\n( calc.src:42 , in Divide() )    ->  Error: I can" ++ ⟨['\x27']⟩ ++
        "t take the inverse of 0!" := by
  decide

/-- Claim C8: `what()` is a pure read: it returns the buffer, leaves the
object unchanged, and two successive calls with no intervening append return
identical strings. -/
theorem C8_what_pure (ts : ThrowStream) :
    (ts.whatCall).1 = ts._desc ∧
    (ts.whatCall).2 = ts ∧
    (ts.whatCall).1 = (((ts.whatCall).2).whatCall).1 := ⟨rfl, rfl, rfl⟩

/-- Claim C10: streaming one `ThrowStream` into another through the generic
`operator<<` appends the right-hand buffer verbatim, with no separator and no
new location marker: `(ts1 << ts2).Message() = ts1.Message() ++ ts2.Message()`. -/
theorem C10_stream_throwstream (t1 t2 : ThrowStream) :
    (t1.AppendTS t2).what = t1.what ++ t2.what := by
  apply String.ext
  simp [ThrowStream.AppendTS, ThrowStream.AppendText, ostreamWrite, ThrowStream.what,
    String.data_append]

/-- Number of (possibly overlapping) occurrences of the pattern `pat` in a
character list: one is counted at every position where `pat` is the next
`pat.length` characters. -/
def countOcc (pat : List Char) : List Char → Nat
  | [] => 0
  | c :: t => (if (c :: t).take pat.length = pat then 1 else 0) + countOcc pat t

/-- Claim C4 counterexample: the claim says every frame-annotation operation
(including `AppendFrom` with a foreign error) appends exactly one
newline-prefixed location marker.  At the concrete input — a fresh object
absorbing the foreign message `boom` at `(1, a.c, g)` with detail enabled —
the appended text contains the `(1, a.c, g)` marker twice, not once. -/
theorem C4_counterexample :
    countOcc (locString true 1 "a.c" "g").data
        ((ThrowStream.ofEx true (Exn.foreign "boom") 1 "a.c" "g")._desc).data = 2 ∧
    ¬ countOcc (locString true 1 "a.c" "g").data
        ((ThrowStream.ofEx true (Exn.foreign "boom") 1 "a.c" "g")._desc).data = 1 := by
  decide

/-- Claim C4 (amended): `AppendLocation` appends exactly the one location
marker; same-kind `AppendFrom` appends the copied chain followed by exactly
one marker; foreign-kind `AppendFrom` appends a marker, the foreign message,
then a second identical marker (two markers — the documented quirk); free-form
text streamed afterwards follows the marker in caller order. -/
theorem C4_frame_annotation_deltas (detail : Bool) (ts chain : ThrowStream)
    (m s : String) (l : Nat) (f fn : String) :
    (ts.Append detail l f fn)._desc = ts._desc ++ locString detail l f fn ∧
    (ts.AppendEx detail (Exn.ts chain) l f fn)._desc =
      ts._desc ++ (chain._desc ++ locString detail l f fn) ∧
    (ts.AppendEx detail (Exn.foreign m) l f fn)._desc =
      ts._desc ++ (locString detail l f fn ++ m ++ locString detail l f fn) ∧
    ((ts.Append detail l f fn).AppendText s)._desc =
      ts._desc ++ (locString detail l f fn ++ s) := by
  refine ⟨rfl, ?_, ?_, ?_⟩ <;>
    · apply String.ext
      simp [ThrowStream.AppendEx, ThrowStream.Append, ThrowStream.AppendText,
        String.data_append]

/-- The states of a `ThrowStream` reachable through its public interface:
built by one of the two constructors, then transformed by any sequence of
`Append`, `Append(exception, ...)` and `operator<<` calls (a `ThrowStream`
absorbed by the exception overload must itself be reachable). -/
inductive Reachable (d : Bool) : ThrowStream → Prop where
  | ofLoc (l : Nat) (f fn : String) : Reachable d (ThrowStream.ofLoc d l f fn)
  | ofExTs {t : ThrowStream} (l : Nat) (f fn : String) :
      Reachable d t → Reachable d (ThrowStream.ofEx d (Exn.ts t) l f fn)
  | ofExForeign (m : String) (l : Nat) (f fn : String) :
      Reachable d (ThrowStream.ofEx d (Exn.foreign m) l f fn)
  | app {ts : ThrowStream} (l : Nat) (f fn : String) :
      Reachable d ts → Reachable d (ts.Append d l f fn)
  | appExTs {ts t : ThrowStream} (l : Nat) (f fn : String) :
      Reachable d ts → Reachable d t → Reachable d (ts.AppendEx d (Exn.ts t) l f fn)
  | appExForeign {ts : ThrowStream} (m : String) (l : Nat) (f fn : String) :
      Reachable d ts → Reachable d (ts.AppendEx d (Exn.foreign m) l f fn)
  | appText {ts : ThrowStream} (s : String) :
      Reachable d ts → Reachable d (ts.AppendText s)

theorem reachable_desc_shape (d : Bool) (ts : ThrowStream) (h : Reachable d ts) :
    ∃ r, ts._desc = "\n" ++ r := by
  induction h with
  | ofLoc l f fn =>
      refine ⟨if d then "( " ++ f ++ ":" ++ toString l ++ " , in " ++ fn ++ "() )    ->  " else "", ?_⟩
      apply String.ext
      simp [ThrowStream.ofLoc, ThrowStream.Append, locString, String.data_append]
  | ofExTs l f fn ht iht =>
      obtain ⟨r, hr⟩ := iht
      refine ⟨r ++ locString d l f fn, ?_⟩
      apply String.ext
      simp [ThrowStream.ofEx, ThrowStream.AppendEx, ThrowStream.Append, hr,
        String.data_append]
  | ofExForeign m l f fn =>
      refine ⟨(if d then "( " ++ f ++ ":" ++ toString l ++ " , in " ++ fn ++ "() )    ->  " else "")
          ++ m ++ locString d l f fn, ?_⟩
      apply String.ext
      simp [ThrowStream.ofEx, ThrowStream.AppendEx, ThrowStream.Append, ThrowStream.AppendText,
        locString, String.data_append]
  | app l f fn hts ih =>
      obtain ⟨r, hr⟩ := ih
      refine ⟨r ++ locString d l f fn, ?_⟩
      apply String.ext
      simp [ThrowStream.Append, hr, String.data_append]
  | @appExTs ts t l f fn hts ht ihts iht =>
      obtain ⟨r, hr⟩ := ihts
      refine ⟨r ++ t._desc ++ locString d l f fn, ?_⟩
      apply String.ext
      simp [ThrowStream.AppendEx, ThrowStream.Append, hr, String.data_append]
  | appExForeign m l f fn hts ih =>
      obtain ⟨r, hr⟩ := ih
      refine ⟨r ++ locString d l f fn ++ m ++ locString d l f fn, ?_⟩
      apply String.ext
      simp [ThrowStream.AppendEx, ThrowStream.Append, ThrowStream.AppendText, hr,
        String.data_append]
  | appText s hts ih =>
      obtain ⟨r, hr⟩ := ih
      refine ⟨r ++ s, ?_⟩
      apply String.ext
      simp [ThrowStream.AppendText, hr, String.data_append]

/-- Claim C9: every reachable `ThrowStream` has a non-empty message whose
first character is a newline — both constructors start by appending a
newline-prefixed marker and no later operation removes it. -/
theorem C9_leading_newline (d : Bool) (ts : ThrowStream) (h : Reachable d ts) :
    ts._desc ≠ "" ∧ ts._desc.data.head? = some '\n' := by
  obtain ⟨r, hr⟩ := reachable_desc_shape d ts h
  rw [hr]
  refine ⟨?_, rfl⟩
  intro hcontra
  have hd : ("\n" ++ r).data.head? = some '\n' := rfl
  rw [hcontra] at hd
  exact absurd hd (by decide)

/-- Claim C9 witness: the invariant instantiated at a concrete reachable
object. -/
theorem C9_witness :
    (ThrowStream.ofLoc true 3 "x.c" "f")._desc ≠ "" ∧
    (ThrowStream.ofLoc true 3 "x.c" "f")._desc.data.head? = some '\n' :=
  C9_leading_newline true _ (Reachable.ofLoc 3 "x.c" "f")

end ThrowStreamSpec
